import Mathlib

/-!
# Task-Manager: verification of the task CRUD / derived-view engine

Shallow embedding of the core of the Task-Manager repository:

* `taskUtils` (`src/unnamed/part_001`, validator / sort / filter / analytics
  section): `validateTask`, `TaskAnalytics.calculateProductivityScore`.
* `ValidationEngine.validateTask` (`src/unnamed/part_001`, validation module).
* `useTasks` (`src/hooks/useTasks.js`): `toggleTask`, `updateTask`.
* `useAdvancedTasks` (`src/unnamed/part_004`): `addTask`, `updateTask`,
  `deleteTask`, `toggleTask`, `bulkUpdate`, `bulkDelete`, `importTasks`,
  `clearTasks`, `undo`, `redo` and the bounded history stacks.
* `useOptimizedTasks` (`src/unnamed/part_004`): `toggleTask`.
* progress utilities (`src/unnamed/part_001`): `exportProgressData`,
  `generateProgressReport`, `calculateStreakData`.

JavaScript timestamps and dates are modelled as integers (milliseconds);
`Math.round` is modelled on rationals; JavaScript string `.trim()` /
`.length` are modelled on the character list of a Lean `String`.
-/

namespace TaskManager

/-- `Task` record, with the fields produced by the hooks' `addTask` and read by
the validators, statistics and streak code.  Timestamps (`createdAt`,
`updatedAt`, `completedAt`, `dueDate`) are milliseconds since the epoch; the
opaque pass-through lists `subtasks`/`attachments` carry no claim-relevant
data and are omitted. -/
structure Task where
  id : Nat
  text : String
  completed : Bool
  createdAt : Int
  updatedAt : Int
  completedAt : Option Int
  category : String
  priority : String
  dueDate : Option Int
  description : String
  estimatedTime : Option Int
  actualTime : Option Int
  tags : List String
  order : Int
deriving Repr, DecidableEq

/-- Model of the JavaScript string `.trim()` (drop leading and trailing
whitespace), on the character list of the string. -/
def jsTrim (s : String) : String :=
  String.mk (((s.data.dropWhile Char.isWhitespace).reverse.dropWhile Char.isWhitespace).reverse)

/-- Model of the JavaScript string `.length` (character count). -/
def jsLen (s : String) : Nat := s.data.length

/-- The closed category set of `TASK_CATEGORIES` (taskUtils). -/
def validCategories : List String :=
  ["general", "work", "personal", "health", "finance", "education", "shopping", "other"]

/-- The keys of `PRIORITY_LEVELS` (taskUtils). -/
def validPriorities : List String := ["low", "medium", "high"]

/-- The fields of a candidate object that `validateTask` (taskUtils) reads.
`category`/`priority` use `""` for a JavaScript falsy (absent or empty)
value; `dueDate = none` models an absent/null due date. -/
structure ValInput where
  text : String
  category : String
  priority : String
  dueDate : Option Int
deriving Repr, DecidableEq

/-- The `errors` object built by `validateTask` (taskUtils): at most one
message per field key. -/
structure TaskUtilsValidation where
  textError : Option String
  categoryError : Option String
  priorityError : Option String
  dueDateError : Option String
deriving Repr, DecidableEq

/-- `isValid`: `Object.keys(errors).length === 0`. -/
def TaskUtilsValidation.isValid (v : TaskUtilsValidation) : Bool :=
  v.textError.isNone && v.categoryError.isNone && v.priorityError.isNone &&
    v.dueDateError.isNone

/-- `validateTask` from taskUtils (`src/unnamed/part_001:1159-1186`).
The source first sets the "required" message when the text is falsy or
blank, then overwrites it with the "less than 200" message when the text is
truthy and longer than 200 characters; the two nested conditionals below
produce that final value.  A past `dueDate` is a blocking error here,
independent of `completed`. -/
def validateTaskUtils (task : ValInput) (now : Int) : TaskUtilsValidation :=
  { textError :=
      if task.text != "" && decide (200 < jsLen task.text) then
        some "Task text must be less than 200 characters"
      else if task.text == "" || jsLen (jsTrim task.text) == 0 then
        some "Task text is required"
      else none
    categoryError :=
      if task.category != "" && !(validCategories.contains task.category) then
        some "Invalid category"
      else none
    priorityError :=
      if task.priority != "" && !(validPriorities.contains task.priority) then
        some "Invalid priority"
      else none
    dueDateError :=
      match task.dueDate with
      | some d => if d < now then some "Due date cannot be in the past" else none
      | none => none }

/-- The validator-relevant projection of a full `Task`. -/
def taskToValInput (t : Task) : ValInput :=
  { text := t.text, category := t.category, priority := t.priority, dueDate := t.dueDate }

/-! ## ValidationEngine.validateTask (`src/unnamed/part_001:367-472`)

Candidate objects here may miss fields or hold unparsable date strings:
`completed = none` models a non-boolean `completed`; for `dueDate` and
`createdAt`, the outer `Option` is field presence (truthiness) and the inner
`Option` is the parse result (`some none` = present but unparsable). -/

structure VETask where
  id : String := ""
  text : String
  completed : Option Bool := none
  category : String := ""
  priority : String := ""
  dueDate : Option (Option Int) := none
  createdAt : Option (Option Int) := none
  updatedAt : Option (Option Int) := none
  estimatedTime : Option Int := none
  actualTime : Option Int := none
  tags : Option (List String) := none
  description : String := ""
deriving Repr, DecidableEq

structure VEResult where
  isValid : Bool
  errors : List String
  warnings : List String
deriving Repr, DecidableEq

/-- Guard of `errors.push('Task text is required ...')`. -/
def veTextRequired (t : VETask) : Bool := t.text == "" || jsLen (jsTrim t.text) == 0

/-- Guard of `errors.push('Task text must be less than 500 characters')`. -/
def veTextTooLong (t : VETask) : Bool := t.text != "" && decide (500 < jsLen t.text)

/-- Guard of the `typeof task.completed !== 'boolean'` error. -/
def veCompletedNotBool (t : VETask) : Bool := t.completed.isNone

/-- Guard of the invalid-category error. -/
def veCategoryInvalid (t : VETask) : Bool :=
  t.category != "" && !(validCategories.contains t.category)

/-- Guard of the invalid-priority error. -/
def vePriorityInvalid (t : VETask) : Bool :=
  t.priority != "" && !(validPriorities.contains t.priority)

/-- The due-date error: present but unparsable. -/
def veDueDateError (t : VETask) : List String :=
  match t.dueDate with
  | some none => ["Due date must be a valid date string"]
  | _ => []

/-- The due-date warning: parsed, in the past, and the task not completed
(`!task.completed` is true for a missing or `false` completed flag). -/
def veDueDateWarning (t : VETask) (now : Int) : List String :=
  match t.dueDate with
  | some (some d) => if decide (d < now) && !(t.completed == some true) then
      ["Due date is in the past"] else []
  | _ => []

/-- Guard of the unparsable `createdAt` error. -/
def veCreatedAtInvalid (t : VETask) : Bool :=
  match t.createdAt with
  | some none => true
  | _ => false

/-- Guard of the negative `estimatedTime` error (non-numbers not modelled). -/
def veEstimatedInvalid (t : VETask) : Bool :=
  match t.estimatedTime with
  | some e => decide (e < 0)
  | none => false

/-- Guard of the negative `actualTime` error. -/
def veActualInvalid (t : VETask) : Bool :=
  match t.actualTime with
  | some e => decide (e < 0)
  | none => false

/-- Per-tag length errors (the source message carries the tag index; the
index is dropped here, only the presence of errors matters). -/
def veTagErrors (t : VETask) : List String :=
  match t.tags with
  | none => []
  | some l =>
    l.foldr (fun tag acc =>
      (if decide (50 < jsLen tag) then ["Tag must be less than 50 characters"] else []) ++ acc) []

/-- Guard of the over-long description error. -/
def veDescriptionTooLong (t : VETask) : Bool :=
  t.description != "" && decide (2000 < jsLen t.description)

/-- `ValidationEngine.validateTask(task, strict)`; errors are accumulated in
source push order, `isValid` is `errors.length === 0`. -/
def validateVE (t : VETask) (strict : Bool) (now : Int) : VEResult :=
  let errors :=
    (if veTextRequired t then ["Task text is required and must be a non-empty string"] else []) ++
    (if veTextTooLong t then ["Task text must be less than 500 characters"] else []) ++
    (if veCompletedNotBool t then ["Task completed status must be a boolean"] else []) ++
    (if veCategoryInvalid t then ["Invalid category"] else []) ++
    (if vePriorityInvalid t then ["Invalid priority"] else []) ++
    veDueDateError t ++
    (if veCreatedAtInvalid t then ["Created date must be a valid date string"] else []) ++
    (if veEstimatedInvalid t then ["Estimated time must be a positive number"] else []) ++
    (if veActualInvalid t then ["Actual time must be a positive number"] else []) ++
    veTagErrors t ++
    (if veDescriptionTooLong t then ["Description must be less than 2000 characters"] else []) ++
    (if strict && (t.id == "") then ["Task ID is required in strict mode"] else []) ++
    (if strict && t.createdAt.isNone then ["Created date is required in strict mode"] else []) ++
    (if strict && t.updatedAt.isNone then ["Updated date is required in strict mode"] else [])
  { isValid := errors.isEmpty, errors := errors, warnings := veDueDateWarning t now }

/-! ## Toggle implementations -/

/-- JavaScript truthiness of an optional number (`0`, `null`, `undefined`
are falsy). -/
def numTruthy : Option Int → Bool
  | some e => e != 0
  | none => false

/-- The mapper of `toggleTask` in `useTasks` (`src/hooks/useTasks.js:82-95`):
flips `completed`, stamps `updatedAt`, copies `estimatedTime` into
`actualTime` when completing a task with a truthy estimate; `completedAt` is
not touched. -/
def toggleUTStep (id : Nat) (now : Int) (task : Task) : Task :=
  if task.id == id then
    { task with
      completed := !task.completed
      updatedAt := now
      actualTime := if !task.completed && numTruthy task.estimatedTime then
          task.estimatedTime else task.actualTime }
  else task

/-- `toggleTask` of `useTasks`: map the step over the collection. -/
def toggleTaskUT (tasks : List Task) (id : Nat) (now : Int) : List Task :=
  tasks.map (toggleUTStep id now)

/-- The mapper of `toggleTask` in `useOptimizedTasks`
(`src/unnamed/part_004:578-591`): flips `completed`, sets `completedAt` to
now on false-to-true and null on true-to-false, stamps `updatedAt`. -/
def toggleOptStep (id : Nat) (now : Int) (task : Task) : Task :=
  if task.id == id then
    { task with
      completed := !task.completed
      completedAt := if !task.completed then some now else none
      updatedAt := now }
  else task

/-- `toggleTask` of `useOptimizedTasks`: map the step over the collection. -/
def toggleTaskOpt (tasks : List Task) (id : Nat) (now : Int) : List Task :=
  tasks.map (toggleOptStep id now)

/-- A pending well-formed task, used by concrete witnesses below. -/
def exTask : Task :=
  { id := 1, text := "a", completed := false, createdAt := 0, updatedAt := 0,
    completedAt := none, category := "general", priority := "medium", dueDate := none,
    description := "", estimatedTime := none, actualTime := none, tags := [], order := 1 }


/-! ## useAdvancedTasks: mutations with history (`src/unnamed/part_004`) -/

/-- A patch object passed to `updateTask`/`bulkUpdate`; `none` models an
absent key (the spread `{...task, ...updates}` keeps the old value), and for
nullable fields `some none` models an explicit `null`. -/
structure TaskPatch where
  text : Option String := none
  completed : Option Bool := none
  completedAt : Option (Option Int) := none
  category : Option String := none
  priority : Option String := none
  dueDate : Option (Option Int) := none
  description : Option String := none
  estimatedTime : Option (Option Int) := none
  actualTime : Option (Option Int) := none
  tags : Option (List String) := none
deriving Repr, DecidableEq

/-- `{...currentTask, ...updates, updatedAt: new Date().toISOString()}`. -/
def applyPatch (t : Task) (p : TaskPatch) (now : Int) : Task :=
  { t with
    text := p.text.getD t.text
    completed := p.completed.getD t.completed
    completedAt := p.completedAt.getD t.completedAt
    category := p.category.getD t.category
    priority := p.priority.getD t.priority
    dueDate := p.dueDate.getD t.dueDate
    description := p.description.getD t.description
    estimatedTime := p.estimatedTime.getD t.estimatedTime
    actualTime := p.actualTime.getD t.actualTime
    tags := p.tags.getD t.tags
    updatedAt := now }

/-- The hook state: the live collection plus the two history stacks.  The
undo stack keeps its newest snapshot at the end (`undoStack[length-1]`),
the redo stack at the front (`redoStack[0]`), as in the source. -/
structure HistState where
  tasks : List Task
  undoStack : List (List Task)
  redoStack : List (List Task)
deriving Repr, DecidableEq

/-- `[...prev.slice(-9), current]`: keep the newest nine snapshots and
append the current collection. -/
def pushStack (stack : List (List Task)) (cur : List Task) : List (List Task) :=
  stack.drop (stack.length - 9) ++ [cur]

/-- The three state updates shared by every mutating operation:
`setUndoStack(prev => [...prev.slice(-9), tasks])`, `setRedoStack([])`,
`setTasks(next)`. -/
def mutateS (s : HistState) (next : List Task) : HistState :=
  { tasks := next, undoStack := pushStack s.undoStack s.tasks, redoStack := [] }

/-- The error taxonomy relevant to the claims ('Task not found' /
validation failure). -/
inductive TaskError where
  | notFound
  | validation
deriving Repr, DecidableEq

/-- The fields of the `taskData` argument of `addTask`; `""` models a falsy
(absent) `category`/`priority`/`description`. -/
structure NewTaskData where
  text : String
  category : String := ""
  priority : String := ""
  dueDate : Option Int := none
  description : String := ""
  estimatedTime : Option Int := none
  tags : List String := []
deriving Repr, DecidableEq

/-- The validator-relevant projection of `taskData`. -/
def newDataToValInput (d : NewTaskData) : ValInput :=
  { text := d.text, category := d.category, priority := d.priority, dueDate := d.dueDate }

/-- `addTask` (`src/unnamed/part_004:42-85`): validate, build the new task,
push the pre-mutation collection onto the undo stack, clear redo, append.
`newId` stands for the generated unique id; a thrown validation error leaves
the state unchanged (the throw happens before any state update). -/
def addTaskS (s : HistState) (d : NewTaskData) (now : Int) (newId : Nat) :
    Except TaskError HistState :=
  if (validateTaskUtils (newDataToValInput d) now).isValid then
    let newTask : Task :=
      { id := newId
        text := jsTrim d.text
        completed := false
        createdAt := now
        updatedAt := now
        completedAt := none
        category := if d.category = "" then "general" else d.category
        priority := if d.priority = "" then "medium" else d.priority
        dueDate := d.dueDate
        description := d.description
        estimatedTime := if numTruthy d.estimatedTime then d.estimatedTime else none
        actualTime := none
        tags := d.tags
        order := Int.ofNat s.tasks.length + 1 }
    Except.ok (mutateS s (s.tasks ++ [newTask]))
  else Except.error TaskError.validation

/-- `updateTask` (`src/unnamed/part_004:88-127`): 'Task not found' when the
id is absent, merge the patch, re-validate with `validateTask` (taskUtils),
and on success push undo / clear redo / replace every task carrying the id
by the merged task.  Errors are thrown before any state update. -/
def updateTaskAdvS (s : HistState) (id : Nat) (p : TaskPatch) (now : Int) :
    Except TaskError HistState :=
  match s.tasks.find? (fun t => t.id == id) with
  | none => Except.error TaskError.notFound
  | some t =>
    let updatedTask := applyPatch t p now
    if (validateTaskUtils (taskToValInput updatedTask) now).isValid then
      Except.ok (mutateS s (s.tasks.map fun x => if x.id == id then updatedTask else x))
    else Except.error TaskError.validation

/-- `deleteTask` (`src/unnamed/part_004:130-153`). -/
def deleteTaskS (s : HistState) (id : Nat) : Except TaskError HistState :=
  if s.tasks.any (fun t => t.id == id) then
    Except.ok (mutateS s (s.tasks.filter fun t => !(t.id == id)))
  else Except.error TaskError.notFound

/-- The patch that `toggleTask` passes to `updateTask`:
`{completed: !task.completed, completedAt: !task.completed ? now : null}`. -/
def togglePatch (t : Task) (now : Int) : TaskPatch :=
  { completed := some (!t.completed)
    completedAt := some (if !t.completed then some now else none) }

/-- `toggleTask` (`src/unnamed/part_004:156-168`): a missing id is a silent
no-op (`if (!task) return`); otherwise delegate to `updateTask` with the
flipped `completed` and the recomputed `completedAt`. -/
def toggleTaskAdvS (s : HistState) (id : Nat) (now : Int) : Except TaskError HistState :=
  match s.tasks.find? (fun t => t.id == id) with
  | none => Except.ok s
  | some t => updateTaskAdvS s id (togglePatch t now) now

/-- `bulkUpdate` (`src/unnamed/part_004:171-200`): best effort, no
validation, ids not present are silently skipped. -/
def bulkUpdateS (s : HistState) (ids : List Nat) (p : TaskPatch) (now : Int) :
    Except TaskError HistState :=
  Except.ok (mutateS s (s.tasks.map fun t => if ids.contains t.id then applyPatch t p now else t))

/-- `bulkDelete` (`src/unnamed/part_004:202-220`). -/
def bulkDeleteS (s : HistState) (ids : List Nat) : Except TaskError HistState :=
  Except.ok (mutateS s (s.tasks.filter fun t => !(ids.contains t.id)))

/-- `importTasks` (`src/unnamed/part_004:300-370`), after file parsing
(I/O is out of scope): when `validate` is set and any imported task fails
`validateTask`, the whole import aborts before any state change; otherwise
push undo, clear redo, and merge or replace. -/
def importTasksS (s : HistState) (imported : List Task) (merge validate : Bool) (now : Int) :
    Except TaskError HistState :=
  if validate && imported.any (fun t => !(validateTaskUtils (taskToValInput t) now).isValid) then
    Except.error TaskError.validation
  else
    Except.ok (mutateS s (if merge then s.tasks ++ imported else imported))

/-- `clearTasks` (`src/unnamed/part_004:417-422`). -/
def clearS (s : HistState) : Except TaskError HistState :=
  Except.ok (mutateS s [])

/-- `undo` (`src/unnamed/part_004:223-233`): returns `false` on an empty
undo stack; otherwise pops the newest snapshot, pushes the current
collection onto the redo stack (keeping its newest nine entries) and makes
the popped snapshot current. -/
def undoS (s : HistState) : HistState × Bool :=
  match s.undoStack.getLast? with
  | none => (s, false)
  | some prev =>
    ({ tasks := prev
       undoStack := s.undoStack.dropLast
       redoStack := s.tasks :: s.redoStack.take 9 }, true)

/-- `redo` (`src/unnamed/part_004:235-245`): symmetric inverse. -/
def redoS (s : HistState) : HistState × Bool :=
  match s.redoStack with
  | [] => (s, false)
  | next :: rest =>
    ({ tasks := next
       undoStack := pushStack s.undoStack s.tasks
       redoStack := rest }, true)

/-- One user-level operation of the hook. -/
inductive TaskOp where
  | add (d : NewTaskData) (now : Int) (newId : Nat)
  | update (id : Nat) (p : TaskPatch) (now : Int)
  | delete (id : Nat)
  | toggle (id : Nat) (now : Int)
  | bulkUpd (ids : List Nat) (p : TaskPatch) (now : Int)
  | bulkDel (ids : List Nat)
  | importOp (ts : List Task) (merge validate : Bool) (now : Int)
  | clear
  | undo
  | redo
deriving Repr, DecidableEq

/-- Dispatch one operation; an `Except.error` result models a thrown
exception, which in the source always happens before any state update, so
the state is unchanged in that case. -/
def applyOp (s : HistState) (op : TaskOp) : Except TaskError HistState :=
  match op with
  | TaskOp.add d now newId => addTaskS s d now newId
  | TaskOp.update id p now => updateTaskAdvS s id p now
  | TaskOp.delete id => deleteTaskS s id
  | TaskOp.toggle id now => toggleTaskAdvS s id now
  | TaskOp.bulkUpd ids p now => bulkUpdateS s ids p now
  | TaskOp.bulkDel ids => bulkDeleteS s ids
  | TaskOp.importOp ts m v now => importTasksS s ts m v now
  | TaskOp.clear => clearS s
  | TaskOp.undo => Except.ok (undoS s).1
  | TaskOp.redo => Except.ok (redoS s).1

/-- The state after an operation, a thrown exception leaving it unchanged. -/
def stepOp (s : HistState) (op : TaskOp) : HistState :=
  match applyOp s op with
  | Except.ok s' => s'
  | Except.error _ => s

/-- Run a sequence of operations. -/
def runOps (s : HistState) (ops : List TaskOp) : HistState :=
  ops.foldl stepOp s

/-- The hook's initial state: empty collection, empty history. -/
def initState : HistState := { tasks := [], undoStack := [], redoStack := [] }

/-- The mutating operations (everything except undo/redo). -/
def isMutatingB : TaskOp → Bool
  | TaskOp.undo => false
  | TaskOp.redo => false
  | _ => true

/-- A toggle whose id is absent returns without mutating anything. -/
def vacuousToggleB (s : HistState) : TaskOp → Bool
  | TaskOp.toggle id _ => (s.tasks.find? (fun t => t.id == id)).isNone
  | _ => false

/-! ## useTasks.updateTask (`src/hooks/useTasks.js:54-74`)

The mapper passed to `setTasks` merges and validates each task whose id
matches and throws on a failed validation, aborting the whole update (state
unchanged); an absent id means no mapper branch fires and the collection is
returned unchanged with no error. -/

def updateTaskUT (tasks : List Task) (id : Nat) (p : TaskPatch) (now : Int) :
    Except TaskError (List Task) :=
  match tasks with
  | [] => Except.ok []
  | t :: rest =>
    if t.id == id then
      let updatedTask := applyPatch t p now
      if (validateTaskUtils (taskToValInput updatedTask) now).isValid then
        (updateTaskUT rest id p now).map (fun l => updatedTask :: l)
      else Except.error TaskError.validation
    else (updateTaskUT rest id p now).map (fun l => t :: l)

/-! ## Statistics (`src/unnamed/part_004:373-387`, `src/unnamed/part_001:1241-1250`) -/

/-- `Math.round` on a rational: round half toward positive infinity. -/
def jsRound (q : Rat) : Int := ⌊q + 1 / 2⌋

/-- `!t.completed && t.dueDate && new Date(t.dueDate) < new Date()`. -/
def overdueB (now : Int) (t : Task) : Bool :=
  !t.completed &&
    (match t.dueDate with
     | some d => decide (d < now)
     | none => false)

structure TaskStats where
  total : Nat
  completed : Nat
  pending : Nat
  overdue : Nat
  completionRate : Int
deriving Repr, DecidableEq

/-- `taskStats` of `useAdvancedTasks` (`src/unnamed/part_004:373-387`). -/
def taskStatsAdv (tasks : List Task) (now : Int) : TaskStats :=
  let total := tasks.length
  let completed := (tasks.filter fun t => t.completed).length
  let overdue := (tasks.filter (overdueB now)).length
  { total := total
    completed := completed
    pending := total - completed
    overdue := overdue
    completionRate :=
      if 0 < total then jsRound ((completed : Rat) / (total : Rat) * 100) else 0 }

/-- `TaskAnalytics.calculateProductivityScore` (`src/unnamed/part_001:1241-1250`):
`100` for an empty collection, otherwise the unrounded completion fraction
minus the overdue penalty, rounded once at the end and clamped at zero. -/
def calculateProductivityScore (tasks : List Task) (now : Int) : Int :=
  let completed := (tasks.filter fun t => t.completed).length
  let total := tasks.length
  let overdue := (tasks.filter (overdueB now)).length
  if total = 0 then 100
  else
    let baseScore : Rat := (completed : Rat) / (total : Rat) * 100
    let penalty : Rat := (overdue : Rat) / (total : Rat) * 20
    max 0 (jsRound (baseScore - penalty))

/-- The productivity score as the specification's sentence states it:
`completionRate = round(completed/total*100)` (0 when total = 0) and
`productivityScore = max(0, round(completionRate - 20*overdueFraction))`
with `overdueFraction = overdue/total` (0 when total = 0).  Defined only to
be compared against `calculateProductivityScore`. -/
def productivityScoreSpec (tasks : List Task) (now : Int) : Int :=
  let total := tasks.length
  let completed := (tasks.filter fun t => t.completed).length
  let overdue := (tasks.filter (overdueB now)).length
  let completionRate : Int :=
    if total = 0 then 0 else jsRound ((completed : Rat) / (total : Rat) * 100)
  let overdueFraction : Rat := if total = 0 then 0 else (overdue : Rat) / (total : Rat)
  max 0 (jsRound ((completionRate : Rat) - 20 * overdueFraction))

/-! ## Progress export / report (`src/unnamed/part_001:659-699, 944-989`) -/

/-- A thrown JavaScript runtime error. -/
inductive JsError where
  | typeError (msg : String)
deriving Repr, DecidableEq

/-- `new TaskAnalytics(tasks)` in `exportProgressData`: `TaskAnalytics`
(taskUtils, `src/unnamed/part_001:1240-1293`) is a plain object literal, not
a class or function, so applying `new` to it throws a `TypeError` before
anything else runs.  (Even past this point, the methods then invoked --
`getCompletionRate`, `getCategoryBreakdown`, `getPriorityBreakdown` -- do
not exist on the object.) -/
def newTaskAnalytics (_tasks : List Task) : Except JsError Unit :=
  Except.error (JsError.typeError "TaskAnalytics is not a constructor")

/-- `exportProgressData` (`src/unnamed/part_001:664-699`): its first
statement is the constructor call above, so the progress-data object after
it is never built; the result type is collapsed to `Unit` because no success
value is reachable. -/
def exportProgressData (tasks : List Task) : Except JsError Unit := do
  let _analytics ← newTaskAnalytics tasks
  pure ()

/-- `generateProgressReport` (`src/unnamed/part_001:944-989`): first calls
`exportProgressData`, whose thrown `TypeError` propagates; the markdown
templating below that call is never reached. -/
def generateProgressReport (tasks : List Task) : Except JsError String := do
  let _progressData ← exportProgressData tasks
  pure ""

/-! ## Streak (`src/unnamed/part_001:799-876`)

`calculateStreakData` groups the completed tasks by the calendar day of
`completedAt` and works on the distinct days sorted newest first; a pair of
adjacent distinct days counts as consecutive when their midnights are
exactly one day apart.  Days are modelled as integers (`dayNumber`), for
which that test is `previous - next = 1`. -/

def msPerDay : Int := 86400000

/-- The calendar day (`toDateString` grouping) of a timestamp. -/
def dayNumber (t : Int) : Int := Int.fdiv t msPerDay

/-- Insert into a descending-sorted list. -/
def insertDesc (x : Int) : List Int → List Int
  | [] => [x]
  | y :: ys => if y ≤ x then x :: y :: ys else y :: insertDesc x ys

/-- Sort descending (`dates.sort((a, b) => new Date(b) - new Date(a))`). -/
def sortDesc (l : List Int) : List Int := l.foldr insertDesc []

/-- The run of consecutive days starting at the head (the current-streak
loop: starts at 1 and extends while the day difference is exactly 1). -/
def initRun : Int → List Int → Nat
  | _, [] => 1
  | prev, d :: rest => if prev - d = 1 then 1 + initRun d rest else 1

/-- The longest-streak loop: `tempStreak` counts the current run, `longest`
the best finished run; the final answer is `max(longest, tempStreak)`. -/
def runsFold : Int → List Int → Nat → Nat → Nat
  | _, [], tempStreak, longest => max longest tempStreak
  | prev, d :: rest, tempStreak, longest =>
    if prev - d = 1 then runsFold d rest (tempStreak + 1) longest
    else runsFold d rest 1 (max longest tempStreak)

structure StreakData where
  current : Nat
  longest : Nat
  isActive : Bool
deriving Repr, DecidableEq

/-- The distinct completion days of a collection, newest first. -/
def completionDays (tasks : List Task) : List Int :=
  sortDesc
    (((tasks.filter fun t => t.completed && t.completedAt.isSome).map
      fun t => dayNumber (t.completedAt.getD 0)).dedup)

/-- `calculateStreakData` (`src/unnamed/part_001:799-876`): the current
streak is anchored (it is counted only when the newest completion day is
today or yesterday), the longest streak scans the full history. -/
def calculateStreakData (tasks : List Task) (now : Int) : StreakData :=
  match completionDays tasks with
  | [] => { current := 0, longest := 0, isActive := false }
  | d :: rest =>
    let today := dayNumber now
    let current := if d = today ∨ d = today - 1 then initRun d rest else 0
    let longest := runsFold d rest 1 0
    { current := current, longest := longest, isActive := 0 < current }

/-! ## Concrete inputs used by witnesses and counterexamples -/

/-- The two stacks hold at most ten snapshots each. -/
def boundedS (s : HistState) : Prop :=
  s.undoStack.length ≤ 10 ∧ s.redoStack.length ≤ 10

/-- A one-task state with empty history. -/
def c1s0 : HistState := { tasks := [exTask], undoStack := [], redoStack := [] }

/-- The state after clearing `c1s0`. -/
def c1s1 : HistState := { tasks := [], undoStack := [[exTask]], redoStack := [] }

/-- A completed well-formed task. -/
def exTaskDone : Task := { exTask with completed := true, completedAt := some 0 }

/-- An incomplete candidate with a past due date and every other check
passing. -/
def exVETask : VETask := { text := "a", completed := some false, dueDate := some (some (-3)) }

/-- The same candidate as `validateTask` (taskUtils) sees it. -/
def exVULate : ValInput := { text := "a", category := "", priority := "", dueDate := some (-3) }

/-- A 500-character candidate text for `ValidationEngine.validateTask`. -/
def ex500VE : VETask := { text := String.mk (List.replicate 500 'a'), completed := some false }

/-- A 501-character candidate text. -/
def ex501VE : VETask := { text := String.mk (List.replicate 501 'a'), completed := some false }

/-- A 201-character candidate text for `validateTask` (taskUtils). -/
def ex201U : ValInput :=
  { text := String.mk (List.replicate 201 'a'), category := "", priority := "", dueDate := none }

/-- A 200-character candidate text. -/
def ex200U : ValInput :=
  { text := String.mk (List.replicate 200 'a'), category := "", priority := "", dueDate := none }

/-- A 300-character candidate text with all other fields valid. -/
def ex300U : ValInput :=
  { text := String.mk (List.replicate 300 'a'), category := "general", priority := "medium",
    dueDate := none }

/-- A completed task, for the concrete statistics collection. -/
def cexDone : Task := { exTask with id := 1, completed := true, completedAt := some 0 }

/-- An overdue pending task (due five milliseconds before time zero). -/
def cexOver : Task := { exTask with id := 2, dueDate := some (-5) }

/-- A plain pending task. -/
def cexPlain : Task := { exTask with id := 3 }

/-- Three tasks: one completed, one overdue, one plain pending. -/
def cexTasks : List Task := [cexDone, cexOver, cexPlain]

/-- A full undo stack (ten snapshots). -/
def stack10 : List (List Task) := List.replicate 10 []

/-! ## Shared lemmas -/

/-- `isEmpty` distributes over append. -/
lemma isEmpty_append (l1 l2 : List String) :
    (l1 ++ l2).isEmpty = (l1.isEmpty && l2.isEmpty) := by
  cases l1 <;> rfl

/-- A boolean-guarded `if` with a false guard takes the else branch. -/
lemma ite_cond_false {α : Sort _} {b : Bool} (x y : α) (h : b = false) :
    (if b = true then x else y) = y := by
  subst h
  simp

/-- The accumulator of the longest-streak loop never decreases. -/
lemma le_runsFold (rest : List Int) (prev : Int) (t l : Nat) :
    l ≤ runsFold prev rest t l := by
  induction rest generalizing prev t l with
  | nil => exact Nat.le_max_left _ _
  | cons d rest ih =>
    unfold runsFold
    split
    · exact ih d (t + 1) l
    · exact le_trans (Nat.le_max_left l t) (ih d 1 (max l t))

/-- The longest-streak loop dominates the run that starts at the head. -/
lemma initRun_le_runsFold (rest : List Int) (prev : Int) (t l : Nat) (ht : 1 ≤ t) :
    t - 1 + initRun prev rest ≤ runsFold prev rest t l := by
  induction rest generalizing prev t l with
  | nil =>
    unfold initRun runsFold
    have h : t - 1 + 1 = t := by omega
    rw [h]
    exact Nat.le_max_right l t
  | cons d rest ih =>
    unfold initRun runsFold
    by_cases h : prev - d = 1
    · rw [if_pos h, if_pos h]
      have h2 := ih d (t + 1) l (by omega)
      have h3 : t - 1 + (1 + initRun d rest) = t + 1 - 1 + initRun d rest := by omega
      rw [h3]
      exact h2
    · rw [if_neg h, if_neg h]
      have h2 := le_runsFold rest d 1 (max l t)
      have h3 : t - 1 + 1 = t := by omega
      rw [h3]
      exact le_trans (Nat.le_max_right l t) h2

/-- The `useTasks` toggle step keeps `completedAt`. -/
lemma toggleUTStep_completedAt (id : Nat) (now : Int) (t : Task) :
    (toggleUTStep id now t).completedAt = t.completedAt := by
  unfold toggleUTStep
  split <;> rfl

/-- The `useTasks` toggle step flips `completed` for the targeted id and
keeps it otherwise, so applying it twice restores the flag. -/
lemma toggleUTStep_twice_completed (id : Nat) (n1 n2 : Int) (t : Task) :
    (toggleUTStep id n2 (toggleUTStep id n1 t)).completed = t.completed := by
  unfold toggleUTStep
  by_cases ha : (t.id == id) = true <;> simp [ha, Bool.not_not]

/-- The optimized toggle step applied twice restores `completed`. -/
lemma toggleOptStep_twice_completed (id : Nat) (n1 n2 : Int) (t : Task) :
    (toggleOptStep id n2 (toggleOptStep id n1 t)).completed = t.completed := by
  unfold toggleOptStep
  by_cases ha : (t.id == id) = true <;> simp [ha, Bool.not_not]

/-- Membership image of the optimized toggle for the targeted task. -/
lemma mem_toggleTaskOpt {tasks : List Task} {t : Task} (h : t ∈ tasks) (id : Nat)
    (now : Int) (hid : t.id = id) :
    { t with completed := !t.completed,
             completedAt := if t.completed then none else some now,
             updatedAt := now } ∈ toggleTaskOpt tasks id now := by
  unfold toggleTaskOpt
  refine List.mem_map.mpr ⟨t, h, ?_⟩
  unfold toggleOptStep
  rw [hid]
  cases hc : t.completed <;> simp [hc]

/-- Membership image of the `useTasks` toggle for the targeted task. -/
lemma mem_toggleTaskUT {tasks : List Task} {t : Task} (h : t ∈ tasks) (id : Nat)
    (now : Int) (hid : t.id = id) :
    { t with completed := !t.completed,
             updatedAt := now,
             actualTime := if !t.completed && numTruthy t.estimatedTime then
                 t.estimatedTime else t.actualTime } ∈ toggleTaskUT tasks id now := by
  unfold toggleTaskUT
  refine List.mem_map.mpr ⟨t, h, ?_⟩
  unfold toggleUTStep
  simp [hid]

/-- The `useTasks` toggle never touches `completedAt`. -/
lemma toggleTaskUT_completedAt_map (tasks : List Task) (id : Nat) (now : Int) :
    (toggleTaskUT tasks id now).map (fun u => u.completedAt) =
      tasks.map (fun u => u.completedAt) := by
  induction tasks with
  | nil => rfl
  | cons a rest ih =>
    simp only [toggleTaskUT, List.map_cons] at ih ⊢
    rw [toggleUTStep_completedAt, ih]

/-- Double toggle (optimized) restores the `completed` flag pointwise. -/
lemma toggleTaskOpt_twice_completed (tasks : List Task) (id : Nat) (n1 n2 : Int) :
    (toggleTaskOpt (toggleTaskOpt tasks id n1) id n2).map (fun u => u.completed) =
      tasks.map (fun u => u.completed) := by
  induction tasks with
  | nil => rfl
  | cons a rest ih =>
    simp only [toggleTaskOpt, List.map_cons] at ih ⊢
    rw [toggleOptStep_twice_completed, ih]

/-- Double toggle (`useTasks`) restores the `completed` flag pointwise. -/
lemma toggleTaskUT_twice_completed (tasks : List Task) (id : Nat) (n1 n2 : Int) :
    (toggleTaskUT (toggleTaskUT tasks id n1) id n2).map (fun u => u.completed) =
      tasks.map (fun u => u.completed) := by
  induction tasks with
  | nil => rfl
  | cons a rest ih =>
    simp only [toggleTaskUT, List.map_cons] at ih ⊢
    rw [toggleUTStep_twice_completed, ih]

/-- Undoing right after a mutation restores the pre-mutation collection and
moves the post-mutation collection onto the redo stack. -/
lemma undoS_mutateS (s : HistState) (ts : List Task) :
    undoS (mutateS s ts) =
      ({ tasks := s.tasks,
         undoStack := s.undoStack.drop (s.undoStack.length - 9),
         redoStack := [ts] }, true) := by
  unfold undoS mutateS pushStack
  rw [List.getLast?_concat]
  simp [List.dropLast_concat]

/-- Redoing from a one-element redo stack re-installs that collection. -/
lemma redoS_one (tasks0 ts : List Task) (u : List (List Task)) :
    redoS { tasks := tasks0, undoStack := u, redoStack := [ts] } =
      ({ tasks := ts, undoStack := pushStack u tasks0, redoStack := [] }, true) := rfl

/-- Every successful mutating operation that is not a vacuous toggle
performs exactly the shared push-undo / clear-redo / set-tasks update. -/
lemma applyOp_ok_shape (s : HistState) (op : TaskOp) (s' : HistState)
    (hm : isMutatingB op = true) (hv : vacuousToggleB s op = false)
    (h : applyOp s op = Except.ok s') : ∃ ts, s' = mutateS s ts := by
  cases op with
  | add d now newId =>
    simp only [applyOp] at h
    unfold addTaskS at h
    split at h
    · exact ⟨_, (Except.ok.inj h).symm⟩
    · exact absurd h (by simp)
  | update id p now =>
    simp only [applyOp] at h
    unfold updateTaskAdvS at h
    cases hf : s.tasks.find? (fun t => t.id == id) with
    | none =>
      simp only [hf] at h
      exact absurd h (by simp)
    | some t =>
      simp only [hf] at h
      split at h
      · exact ⟨_, (Except.ok.inj h).symm⟩
      · exact absurd h (by simp)
  | delete id =>
    simp only [applyOp] at h
    unfold deleteTaskS at h
    split at h
    · exact ⟨_, (Except.ok.inj h).symm⟩
    · exact absurd h (by simp)
  | toggle id now =>
    simp only [applyOp] at h
    unfold toggleTaskAdvS at h
    cases hf : s.tasks.find? (fun t => t.id == id) with
    | none =>
      exfalso
      simp only [vacuousToggleB] at hv
      rw [hf] at hv
      simp at hv
    | some t =>
      simp only [hf] at h
      unfold updateTaskAdvS at h
      simp only [hf] at h
      split at h
      · exact ⟨_, (Except.ok.inj h).symm⟩
      · exact absurd h (by simp)
  | bulkUpd ids p now =>
    simp only [applyOp, bulkUpdateS] at h
    exact ⟨_, (Except.ok.inj h).symm⟩
  | bulkDel ids =>
    simp only [applyOp, bulkDeleteS] at h
    exact ⟨_, (Except.ok.inj h).symm⟩
  | importOp ts m v now =>
    simp only [applyOp] at h
    unfold importTasksS at h
    split at h
    · exact absurd h (by simp)
    · exact ⟨_, (Except.ok.inj h).symm⟩
  | clear =>
    simp only [applyOp, clearS] at h
    exact ⟨_, (Except.ok.inj h).symm⟩
  | undo => simp [isMutatingB] at hm
  | redo => simp [isMutatingB] at hm

/-- Every push keeps the stack within ten snapshots. -/
lemma pushStack_length_le (stack : List (List Task)) (cur : List Task) :
    (pushStack stack cur).length ≤ 10 := by
  simp [pushStack]
  omega

lemma boundedS_mutateS (s : HistState) (ts : List Task) : boundedS (mutateS s ts) :=
  ⟨pushStack_length_le _ _, by simp [mutateS]⟩

lemma boundedS_undoS (s : HistState) (hb : boundedS s) : boundedS (undoS s).1 := by
  unfold undoS
  cases h : s.undoStack.getLast? with
  | none => exact hb
  | some prev =>
    have h1 := hb.1
    constructor
    · simp only [List.length_dropLast]
      omega
    · simp only [List.length_cons, List.length_take]
      omega

lemma boundedS_redoS (s : HistState) (hb : boundedS s) : boundedS (redoS s).1 := by
  unfold redoS
  cases h : s.redoStack with
  | nil => exact hb
  | cons next rest =>
    refine ⟨pushStack_length_le _ _, ?_⟩
    have : rest.length + 1 ≤ 10 := by
      have := hb.2
      rw [h] at this
      simpa using this
    simp
    omega

/-- Every successful operation result is the unchanged state, a mutation
push, or an undo/redo result. -/
lemma stepOp_forms (s : HistState) (op : TaskOp) :
    stepOp s op = s ∨ (∃ ts, stepOp s op = mutateS s ts) ∨
      stepOp s op = (undoS s).1 ∨ stepOp s op = (redoS s).1 := by
  cases hap : applyOp s op with
  | error e =>
    left
    simp [stepOp, hap]
  | ok s1 =>
    have hs : stepOp s op = s1 := by simp [stepOp, hap]
    rw [hs]
    cases op with
    | add d now newId =>
      simp only [applyOp] at hap
      unfold addTaskS at hap
      split at hap
      · exact Or.inr (Or.inl ⟨_, (Except.ok.inj hap).symm⟩)
      · exact absurd hap (by simp)
    | update id p now =>
      simp only [applyOp] at hap
      unfold updateTaskAdvS at hap
      cases hf : s.tasks.find? (fun t => t.id == id) with
      | none =>
        simp only [hf] at hap
        exact absurd hap (by simp)
      | some t =>
        simp only [hf] at hap
        split at hap
        · exact Or.inr (Or.inl ⟨_, (Except.ok.inj hap).symm⟩)
        · exact absurd hap (by simp)
    | delete id =>
      simp only [applyOp] at hap
      unfold deleteTaskS at hap
      split at hap
      · exact Or.inr (Or.inl ⟨_, (Except.ok.inj hap).symm⟩)
      · exact absurd hap (by simp)
    | toggle id now =>
      simp only [applyOp] at hap
      unfold toggleTaskAdvS at hap
      cases hf : s.tasks.find? (fun t => t.id == id) with
      | none =>
        simp only [hf] at hap
        exact Or.inl (Except.ok.inj hap).symm
      | some t =>
        simp only [hf] at hap
        unfold updateTaskAdvS at hap
        simp only [hf] at hap
        split at hap
        · exact Or.inr (Or.inl ⟨_, (Except.ok.inj hap).symm⟩)
        · exact absurd hap (by simp)
    | bulkUpd ids p now =>
      simp only [applyOp, bulkUpdateS] at hap
      exact Or.inr (Or.inl ⟨_, (Except.ok.inj hap).symm⟩)
    | bulkDel ids =>
      simp only [applyOp, bulkDeleteS] at hap
      exact Or.inr (Or.inl ⟨_, (Except.ok.inj hap).symm⟩)
    | importOp ts m v now =>
      simp only [applyOp] at hap
      unfold importTasksS at hap
      split at hap
      · exact absurd hap (by simp)
      · exact Or.inr (Or.inl ⟨_, (Except.ok.inj hap).symm⟩)
    | clear =>
      simp only [applyOp, clearS] at hap
      exact Or.inr (Or.inl ⟨_, (Except.ok.inj hap).symm⟩)
    | undo =>
      simp only [applyOp] at hap
      exact Or.inr (Or.inr (Or.inl (Except.ok.inj hap).symm))
    | redo =>
      simp only [applyOp] at hap
      exact Or.inr (Or.inr (Or.inr (Except.ok.inj hap).symm))

lemma boundedS_stepOp (s : HistState) (op : TaskOp) (hb : boundedS s) :
    boundedS (stepOp s op) := by
  rcases stepOp_forms s op with h | ⟨ts, h⟩ | h | h <;> rw [h]
  · exact hb
  · exact boundedS_mutateS s ts
  · exact boundedS_undoS s hb
  · exact boundedS_redoS s hb

lemma boundedS_runOps (ops : List TaskOp) (s : HistState) (hb : boundedS s) :
    boundedS (runOps s ops) := by
  induction ops generalizing s with
  | nil => exact hb
  | cons op rest ih => exact ih _ (boundedS_stepOp s op hb)

/-- `useTasks.updateTask` with an absent id maps every task to itself and
raises nothing. -/
lemma updateTaskUT_noop (tasks : List Task) (id : Nat) (p : TaskPatch) (now : Int)
    (h : ∀ t ∈ tasks, t.id ≠ id) : updateTaskUT tasks id p now = Except.ok tasks := by
  induction tasks with
  | nil => rfl
  | cons a rest ih =>
    have ha : (a.id == id) = false := by
      simpa using h a (List.mem_cons_self a rest)
    have hrest := ih (fun t ht => h t (List.mem_cons_of_mem a ht))
    simp [updateTaskUT, ha, hrest, Except.map]

/-- `useTasks.updateTask` raises a validation error (collection unchanged)
when some task carrying the id fails re-validation after the merge. -/
lemma updateTaskUT_invalid (tasks : List Task) (id : Nat) (p : TaskPatch) (now : Int)
    (h : ∃ t ∈ tasks, t.id = id ∧
      (validateTaskUtils (taskToValInput (applyPatch t p now)) now).isValid = false) :
    updateTaskUT tasks id p now = Except.error TaskError.validation := by
  induction tasks with
  | nil =>
    rcases h with ⟨t, ht, _⟩
    exact absurd ht (List.not_mem_nil t)
  | cons a rest ih =>
    by_cases ha : a.id = id
    · by_cases hvalid :
          (validateTaskUtils (taskToValInput (applyPatch a p now)) now).isValid = true
      · have hrest : ∃ t ∈ rest, t.id = id ∧
            (validateTaskUtils (taskToValInput (applyPatch t p now)) now).isValid = false := by
          rcases h with ⟨t, ht, hid, hinv⟩
          rcases List.mem_cons.mp ht with rfl | htr
          · rw [hvalid] at hinv
            exact absurd hinv (by simp)
          · exact ⟨t, htr, hid, hinv⟩
        simp [updateTaskUT, ha, hvalid, ih hrest, Except.map]
      · simp only [Bool.not_eq_true] at hvalid
        simp [updateTaskUT, ha, hvalid]
    · have hrest : ∃ t ∈ rest, t.id = id ∧
          (validateTaskUtils (taskToValInput (applyPatch t p now)) now).isValid = false := by
        rcases h with ⟨t, ht, hid, hinv⟩
        rcases List.mem_cons.mp ht with rfl | htr
        · exact absurd hid ha
        · exact ⟨t, htr, hid, hinv⟩
      have ha2 : (a.id == id) = false := by simpa using ha
      simp [updateTaskUT, ha2, ih hrest, Except.map]

/-- `useAdvancedTasks.updateTask` with an absent id throws 'Task not found'. -/
lemma updateTaskAdvS_notFound (s : HistState) (id : Nat) (p : TaskPatch) (now : Int)
    (h : ∀ t ∈ s.tasks, t.id ≠ id) :
    updateTaskAdvS s id p now = Except.error TaskError.notFound := by
  have hf : s.tasks.find? (fun t => t.id == id) = none := by
    rw [List.find?_eq_none]
    intro t ht
    simpa using h t ht
  unfold updateTaskAdvS
  rw [hf]

/-- `useAdvancedTasks.updateTask` throws a validation error (before any
state update) when the merged task fails re-validation. -/
lemma updateTaskAdvS_invalid (s : HistState) (id : Nat) (p : TaskPatch) (now : Int)
    (t : Task) (hf : s.tasks.find? (fun u => u.id == id) = some t)
    (hv : (validateTaskUtils (taskToValInput (applyPatch t p now)) now).isValid = false) :
    updateTaskAdvS s id p now = Except.error TaskError.validation := by
  unfold updateTaskAdvS
  rw [hf]
  simp [hv]

/-! ## Claims -/

/-- Claim C1 (confirmed): for every hook state and every single successful
mutating operation (add, update, delete, toggle of a present task, bulk
update/delete, import, clear), calling undo immediately afterwards returns
true and restores the pre-mutation collection, and calling redo immediately
after that undo returns true and restores the post-mutation collection;
undo with an empty undo stack returns false and leaves the state
unchanged. -/
theorem C1_undo_redo_roundtrip :
    (∀ (s : HistState) (op : TaskOp) (s' : HistState),
        isMutatingB op = true → vacuousToggleB s op = false →
        applyOp s op = Except.ok s' →
        (undoS s').2 = true ∧ (undoS s').1.tasks = s.tasks ∧
          (redoS (undoS s').1).2 = true ∧ (redoS (undoS s').1).1.tasks = s'.tasks) ∧
    (∀ s : HistState, s.undoStack = [] → undoS s = (s, false)) := by
  constructor
  · intro s op s' hm hv h
    obtain ⟨ts, rfl⟩ := applyOp_ok_shape s op s' hm hv h
    simp only [undoS_mutateS, redoS_one]
    simp [mutateS]
  · intro s hs
    unfold undoS
    rw [hs]
    rfl

/-- Claim C1 witness: a concrete clear on a one-task collection, undone and
redone, plus undo on the empty initial state. -/
theorem C1_witness :
    ((undoS c1s1).2 = true ∧ (undoS c1s1).1.tasks = c1s0.tasks ∧
      (redoS (undoS c1s1).1).2 = true ∧ (redoS (undoS c1s1).1).1.tasks = c1s1.tasks) ∧
    undoS initState = (initState, false) :=
  ⟨C1_undo_redo_roundtrip.1 c1s0 TaskOp.clear c1s1 rfl rfl rfl,
   C1_undo_redo_roundtrip.2 initState rfl⟩

/-- Claim C2 (corrected): in `useOptimizedTasks.toggleTask` (and the same
patch is routed through `updateTask` by `useAdvancedTasks.toggleTask`),
toggling a present task flips `completed`, sets `completedAt` to the
current time on false-to-true and to null on true-to-false, and stamps
`updatedAt`; but `useTasks.toggleTask` leaves `completedAt` untouched on
every task, setting `actualTime` from `estimatedTime` instead. -/
theorem C2_toggle_fields :
    (∀ (tasks : List Task) (id : Nat) (now : Int) (t : Task), t ∈ tasks → t.id = id →
        { t with completed := !t.completed,
                 completedAt := if t.completed then none else some now,
                 updatedAt := now } ∈ toggleTaskOpt tasks id now) ∧
    (∀ (tasks : List Task) (id : Nat) (now : Int),
        (toggleTaskUT tasks id now).map (fun u => u.completedAt) =
          tasks.map (fun u => u.completedAt)) ∧
    (∀ (tasks : List Task) (id : Nat) (now : Int) (t : Task), t ∈ tasks → t.id = id →
        { t with completed := !t.completed,
                 updatedAt := now,
                 actualTime := if !t.completed && numTruthy t.estimatedTime then
                     t.estimatedTime else t.actualTime } ∈ toggleTaskUT tasks id now) :=
  ⟨fun _ _ _ _ h hid => mem_toggleTaskOpt h _ _ hid,
   toggleTaskUT_completedAt_map,
   fun _ _ _ _ h hid => mem_toggleTaskUT h _ _ hid⟩

/-- Claim C2 witness: toggling the concrete pending task. -/
theorem C2_witness :
    ({ exTask with completed := true, completedAt := some 5, updatedAt := 5 } ∈
        toggleTaskOpt [exTask] 1 5) ∧
    (toggleTaskUT [exTask] 1 5).map (fun u => u.completedAt) = [none] ∧
    ({ exTask with completed := true, updatedAt := 5 } ∈ toggleTaskUT [exTask] 1 5) :=
  ⟨C2_toggle_fields.1 [exTask] 1 5 exTask (by decide) rfl,
   (C2_toggle_fields.2.1 [exTask] 1 5).trans (by rfl),
   C2_toggle_fields.2.2 [exTask] 1 5 exTask (by decide) rfl⟩

/-- Claim C2 counterexample: `useTasks.toggleTask` completes the pending
task (flag flips to true) yet `completedAt` stays null rather than becoming
the current time. -/
theorem C2_counterexample :
    (toggleTaskUT [exTask] 1 5).map (fun u => u.completed) = [true] ∧
    (toggleTaskUT [exTask] 1 5).map (fun u => u.completedAt) = [none] ∧
    (none : Option Int) ≠ some 5 := by decide

/-- Claim C3 (corrected): double toggle always restores `completed`, for
both toggle implementations; the optimized/advanced toggle restores
`completedAt` when the task was pending with a null `completedAt` (the
well-formed pending state), while for an initially completed task the final
`completedAt` is the time of the second toggle rather than the original
value; `useTasks`' toggle never touches `completedAt`, so there it is
always restored. -/
theorem C3_double_toggle :
    (∀ (tasks : List Task) (id : Nat) (n1 n2 : Int),
        (toggleTaskOpt (toggleTaskOpt tasks id n1) id n2).map (fun u => u.completed) =
          tasks.map (fun u => u.completed)) ∧
    (∀ (tasks : List Task) (id : Nat) (n1 n2 : Int) (t : Task), t ∈ tasks → t.id = id →
        t.completed = false → t.completedAt = none →
        { t with updatedAt := n2 } ∈ toggleTaskOpt (toggleTaskOpt tasks id n1) id n2) ∧
    (∀ (tasks : List Task) (id : Nat) (n1 n2 : Int),
        (toggleTaskUT (toggleTaskUT tasks id n1) id n2).map (fun u => u.completed) =
          tasks.map (fun u => u.completed)) ∧
    (∀ (tasks : List Task) (id : Nat) (n1 n2 : Int),
        (toggleTaskUT (toggleTaskUT tasks id n1) id n2).map (fun u => u.completedAt) =
          tasks.map (fun u => u.completedAt)) := by
  refine ⟨toggleTaskOpt_twice_completed, ?_, toggleTaskUT_twice_completed, ?_⟩
  · intro tasks id n1 n2 t ht hid hc hca
    obtain ⟨tid, ttext, tcomp, tca, tua, tcAt, tcat, tpri, tdd, tdesc, test, tact, ttags,
      tord⟩ := t
    dsimp only at hc hca hid
    subst hc
    subst hca
    exact mem_toggleTaskOpt (mem_toggleTaskOpt ht id n1 hid) id n2 hid
  · intro tasks id n1 n2
    rw [toggleTaskUT_completedAt_map, toggleTaskUT_completedAt_map]

/-- Claim C3 witness: double toggle of the concrete pending task restores
`completed` and `completedAt`. -/
theorem C3_witness :
    ({ exTask with updatedAt := 9 } ∈ toggleTaskOpt (toggleTaskOpt [exTask] 1 5) 1 9) ∧
    (toggleTaskOpt (toggleTaskOpt [exTask] 1 5) 1 9).map (fun u => u.completed) =
      [exTask].map (fun u => u.completed) :=
  ⟨C3_double_toggle.2.1 [exTask] 1 5 9 exTask (by decide) rfl rfl rfl,
   C3_double_toggle.1 [exTask] 1 5 9⟩

/-- Claim C3 counterexample: double-toggling a completed task restores
`completed` but leaves `completedAt` at the time of the second toggle
(`some 9`), not at its original value (`some 0`). -/
theorem C3_counterexample :
    (toggleTaskOpt (toggleTaskOpt [exTaskDone] 1 5) 1 9).map (fun u => u.completed) =
      [true] ∧
    (toggleTaskOpt (toggleTaskOpt [exTaskDone] 1 5) 1 9).map (fun u => u.completedAt) =
      [some 9] ∧
    exTaskDone.completedAt = some 0 ∧ (some 9 : Option Int) ≠ some 0 := by decide

/-- Claim C4 (corrected): `useAdvancedTasks.updateTask` fails with the
not-found error when the id is absent and with a validation error when the
merged task fails re-validation, leaving the collection unchanged in both
cases; `useTasks.updateTask`, however, silently returns the unchanged
collection (no error at all) when the id is absent, and raises a validation
error leaving the collection unchanged when a merged task fails
re-validation. -/
theorem C4_update_errors :
    (∀ (s : HistState) (id : Nat) (p : TaskPatch) (now : Int),
        (∀ t ∈ s.tasks, t.id ≠ id) →
        updateTaskAdvS s id p now = Except.error TaskError.notFound) ∧
    (∀ (s : HistState) (id : Nat) (p : TaskPatch) (now : Int) (t : Task),
        s.tasks.find? (fun u => u.id == id) = some t →
        (validateTaskUtils (taskToValInput (applyPatch t p now)) now).isValid = false →
        updateTaskAdvS s id p now = Except.error TaskError.validation) ∧
    (∀ (tasks : List Task) (id : Nat) (p : TaskPatch) (now : Int),
        (∀ t ∈ tasks, t.id ≠ id) →
        updateTaskUT tasks id p now = Except.ok tasks) ∧
    (∀ (tasks : List Task) (id : Nat) (p : TaskPatch) (now : Int),
        (∃ t ∈ tasks, t.id = id ∧
          (validateTaskUtils (taskToValInput (applyPatch t p now)) now).isValid = false) →
        updateTaskUT tasks id p now = Except.error TaskError.validation) :=
  ⟨updateTaskAdvS_notFound, updateTaskAdvS_invalid,
   updateTaskUT_noop, updateTaskUT_invalid⟩

/-- Claim C4 witness: concrete absent-id and failing-validation updates
(the patch empties the text, so the merged task fails validation). -/
theorem C4_witness :
    updateTaskAdvS c1s0 2 {} 0 = Except.error TaskError.notFound ∧
    updateTaskAdvS c1s0 1 { text := some "" } 0 = Except.error TaskError.validation ∧
    updateTaskUT [exTask] 2 {} 0 = Except.ok [exTask] ∧
    updateTaskUT [exTask] 1 { text := some "" } 0 = Except.error TaskError.validation :=
  ⟨C4_update_errors.1 c1s0 2 {} 0 (by decide),
   C4_update_errors.2.1 c1s0 1 { text := some "" } 0 exTask (by decide) (by decide),
   C4_update_errors.2.2.1 [exTask] 2 {} 0 (by decide),
   C4_update_errors.2.2.2 [exTask] 1 { text := some "" } 0 ⟨exTask, by decide, rfl, by decide⟩⟩

/-- Claim C4 counterexample: `useTasks.updateTask` with an id absent from
the collection returns success with the collection unchanged instead of
failing with a not-found error. -/
theorem C4_counterexample :
    updateTaskUT [exTask] 2 {} 0 = Except.ok [exTask] ∧
    (Except.ok [exTask] : Except TaskError (List Task)) ≠
      Except.error TaskError.notFound :=
  ⟨rfl, fun h => Except.noConfusion h⟩

/-- Claim C5 (corrected): `ValidationEngine.validateTask` reports a past
due date on an incomplete, otherwise-valid candidate only as a non-blocking
warning (isValid true, empty errors, the warning recorded); but
`validateTask` in taskUtils -- the validator the add/update hooks actually
run -- treats any past due date as a blocking error, so adding such a task
is rejected. -/
theorem C5_past_due_warning :
    (∀ (t : VETask) (now d : Int),
        t.dueDate = some (some d) → d < now → t.completed = some false →
        veTextRequired t = false → veTextTooLong t = false →
        veCategoryInvalid t = false → vePriorityInvalid t = false →
        veCreatedAtInvalid t = false → veEstimatedInvalid t = false →
        veActualInvalid t = false → veTagErrors t = [] → veDescriptionTooLong t = false →
        (validateVE t false now).isValid = true ∧
        (validateVE t false now).errors = [] ∧
        (validateVE t false now).warnings = ["Due date is in the past"]) ∧
    (∀ (u : ValInput) (now d : Int), u.dueDate = some d → d < now →
        (validateTaskUtils u now).isValid = false) := by
  constructor
  · intro t now d hdd hlt hc h1 h2 h3 h4 h5 h6 h7 h8 h9
    have hde : veDueDateError t = [] := by
      unfold veDueDateError
      rw [hdd]
    have hw : veDueDateWarning t now = ["Due date is in the past"] := by
      unfold veDueDateWarning
      rw [hdd, hc]
      simp [hlt]
    have hcb : veCompletedNotBool t = false := by
      unfold veCompletedNotBool
      rw [hc]
      rfl
    unfold validateVE
    simp [h1, h2, h3, h4, h5, h6, h7, h8, h9, hde, hw, hcb]
  · intro u now d hdd hlt
    simp [validateTaskUtils, TaskUtilsValidation.isValid, hdd, hlt]

/-- Claim C5 witness: the concrete incomplete candidate with a due date
three milliseconds in the past. -/
theorem C5_witness :
    ((validateVE exVETask false 0).isValid = true ∧
      (validateVE exVETask false 0).errors = [] ∧
      (validateVE exVETask false 0).warnings = ["Due date is in the past"]) ∧
    (validateTaskUtils exVULate 0).isValid = false :=
  ⟨C5_past_due_warning.1 exVETask 0 (-3) rfl (by decide) rfl (by decide) (by decide)
      (by decide) (by decide) (by decide) (by decide) (by decide) (by decide) (by decide),
   C5_past_due_warning.2 exVULate 0 (-3) rfl (by decide)⟩

/-- Claim C5 counterexample: `validateTask` (taskUtils) rejects the same
incomplete, otherwise-valid candidate because of its past due date, so the
past due date is not a non-blocking warning there. -/
theorem C5_counterexample :
    (validateTaskUtils exVULate 0).textError = none ∧
    (validateTaskUtils exVULate 0).categoryError = none ∧
    (validateTaskUtils exVULate 0).priorityError = none ∧
    (validateTaskUtils exVULate 0).dueDateError = some "Due date cannot be in the past" ∧
    (validateTaskUtils exVULate 0).isValid = false := by decide

/-- Claim C6 (corrected): the exact 500-character threshold holds for
`ValidationEngine.validateTask` (non-blank text of length at most 500 is
accepted when the other checks pass, length over 500 is rejected); but
`validateTask` in taskUtils, the validator used by the hooks, has the
threshold at 200: text over 200 characters is rejected and non-blank text
of at most 200 characters is accepted (other checks passing). -/
theorem C6_text_length_threshold :
    (∀ (t : VETask) (now : Int),
        jsLen (jsTrim t.text) ≠ 0 → jsLen t.text ≤ 500 →
        veCompletedNotBool t = false → veCategoryInvalid t = false →
        vePriorityInvalid t = false → veDueDateError t = [] →
        veCreatedAtInvalid t = false → veEstimatedInvalid t = false →
        veActualInvalid t = false → veTagErrors t = [] → veDescriptionTooLong t = false →
        (validateVE t false now).isValid = true) ∧
    (∀ (t : VETask) (now : Int), 500 < jsLen t.text →
        (validateVE t false now).isValid = false) ∧
    (∀ (u : ValInput) (now : Int), 200 < jsLen u.text →
        (validateTaskUtils u now).isValid = false) ∧
    (∀ (u : ValInput) (now : Int),
        jsLen (jsTrim u.text) ≠ 0 → jsLen u.text ≤ 200 →
        (u.category = "" ∨ validCategories.contains u.category = true) →
        (u.priority = "" ∨ validPriorities.contains u.priority = true) →
        (∀ d, u.dueDate = some d → ¬ d < now) →
        (validateTaskUtils u now).isValid = true) := by
  refine ⟨?_, ?_, ?_, ?_⟩
  · intro t now htrim hlen hcb hcat hpri hdd hca hest hact htags hdesc
    have hne : (t.text == "") = false := by
      refine beq_eq_false_iff_ne.mpr ?_
      intro he
      rw [he] at htrim
      exact htrim rfl
    have hr : veTextRequired t = false := by
      unfold veTextRequired
      simp [hne, htrim]
    have htl : veTextTooLong t = false := by
      unfold veTextTooLong
      simp [Nat.not_lt.mpr hlen]
    unfold validateVE
    simp [hr, htl, hcb, hcat, hpri, hdd, hca, hest, hact, htags, hdesc]
  · intro t now h
    have hne : t.text ≠ "" := by
      intro he
      rw [he] at h
      exact absurd h (by decide)
    have htl : veTextTooLong t = true := by
      unfold veTextTooLong
      simp [bne_iff_ne, hne, h]
    unfold validateVE
    simp [htl, isEmpty_append]
  · intro u now h
    have hne : u.text ≠ "" := by
      intro he
      rw [he] at h
      exact absurd h (by decide)
    simp [validateTaskUtils, TaskUtilsValidation.isValid, bne_iff_ne, hne, h]
  · intro u now htrim hlen hcat hpri hdd
    have hne : u.text ≠ "" := by
      intro he
      apply htrim
      rw [he]
      rfl
    have h1 : (u.text != "" && decide (200 < jsLen u.text)) = false := by
      simp [Nat.not_lt.mpr hlen]
    have h2 : (u.text == "" || jsLen (jsTrim u.text) == 0) = false := by
      simp [beq_eq_false_iff_ne.mpr hne, htrim]
    have h3 : (u.category != "" && !(validCategories.contains u.category)) = false := by
      rcases hcat with hc | hc
      · simp [hc]
      · rw [hc]
        simp
    have h4 : (u.priority != "" && !(validPriorities.contains u.priority)) = false := by
      rcases hpri with hp | hp
      · simp [hp]
      · rw [hp]
        simp
    have ht : (validateTaskUtils u now).textError = none := by
      unfold validateTaskUtils
      dsimp only
      rw [ite_cond_false _ _ h1, ite_cond_false _ _ h2]
    have hcE : (validateTaskUtils u now).categoryError = none := by
      unfold validateTaskUtils
      dsimp only
      rw [ite_cond_false _ _ h3]
    have hpE : (validateTaskUtils u now).priorityError = none := by
      unfold validateTaskUtils
      dsimp only
      rw [ite_cond_false _ _ h4]
    have hdE : (validateTaskUtils u now).dueDateError = none := by
      unfold validateTaskUtils
      dsimp only
      cases hdate : u.dueDate with
      | none => rfl
      | some d => exact if_neg (hdd d hdate)
    unfold TaskUtilsValidation.isValid
    rw [ht, hcE, hpE, hdE]
    rfl

set_option maxRecDepth 40000 in
/-- Claim C6 witness: texts of lengths 500/501 at the `ValidationEngine`
boundary and 200/201 at the taskUtils boundary. -/
theorem C6_witness :
    (validateVE ex500VE false 0).isValid = true ∧
    (validateVE ex501VE false 0).isValid = false ∧
    (validateTaskUtils ex201U 0).isValid = false ∧
    (validateTaskUtils ex200U 0).isValid = true :=
  ⟨C6_text_length_threshold.1 ex500VE 0 (by decide) (by decide) (by decide) (by decide)
      (by decide) (by decide) (by decide) (by decide) (by decide) (by decide) (by decide),
   C6_text_length_threshold.2.1 ex501VE 0 (by decide),
   C6_text_length_threshold.2.2.1 ex201U 0 (by decide),
   C6_text_length_threshold.2.2.2 ex200U 0 (by decide) (by decide) (Or.inl rfl) (Or.inl rfl)
     (fun _ hd => Option.noConfusion hd)⟩

set_option maxRecDepth 40000 in
/-- Claim C6 counterexample: a 300-character non-blank text, all other
fields valid, is rejected by `validateTask` (taskUtils) although the claim
says every text of at most 500 characters is accepted. -/
theorem C6_counterexample :
    jsLen ex300U.text = 300 ∧ jsLen (jsTrim ex300U.text) ≠ 0 ∧
    ex300U.category = "general" ∧ ex300U.priority = "medium" ∧ ex300U.dueDate = none ∧
    (validateTaskUtils ex300U 0).isValid = false := by decide

/-- Claim C7 (corrected): `taskStats` computes `completionRate =
round(completed/total*100)` with 0 at total = 0, as claimed; but
`calculateProductivityScore` returns 100 (not the formula value 0) for the
empty collection, and for nonempty collections it rounds
`completed/total*100 - 20*overdue/total` once at the end, using the
unrounded completion fraction instead of the already-rounded
`completionRate`. -/
theorem C7_statistics_formulas :
    ∀ (tasks : List Task) (now : Int),
      (taskStatsAdv tasks now).total = tasks.length ∧
      (taskStatsAdv tasks now).completed = (tasks.filter fun t => t.completed).length ∧
      (taskStatsAdv tasks now).pending =
        tasks.length - (tasks.filter fun t => t.completed).length ∧
      (taskStatsAdv tasks now).overdue = (tasks.filter (overdueB now)).length ∧
      (taskStatsAdv tasks now).completionRate =
        (if tasks.length = 0 then 0
         else jsRound (((tasks.filter fun t => t.completed).length : Rat) /
           (tasks.length : Rat) * 100)) ∧
      calculateProductivityScore tasks now =
        (if tasks.length = 0 then 100
         else max 0 (jsRound (((tasks.filter fun t => t.completed).length : Rat) /
             (tasks.length : Rat) * 100 -
           ((tasks.filter (overdueB now)).length : Rat) / (tasks.length : Rat) * 20))) := by
  intro tasks now
  refine ⟨rfl, rfl, rfl, rfl, ?_, ?_⟩
  · by_cases h : tasks.length = 0
    · simp [taskStatsAdv, h]
    · have hpos : 0 < tasks.length := Nat.pos_of_ne_zero h
      simp [taskStatsAdv, h, hpos]
  · by_cases h : tasks.length = 0
    · simp [calculateProductivityScore, h]
    · simp [calculateProductivityScore, h]

/-- Claim C7 counterexample: on the empty collection the code returns 100
while the claimed formula gives 0; on the three-task collection (1
completed, 1 overdue) the code gives 27 while the claimed formula (which
rounds the completion rate before subtracting) gives 26. -/
theorem C7_counterexample :
    calculateProductivityScore [] 0 = 100 ∧ productivityScoreSpec [] 0 = 0 ∧
    calculateProductivityScore cexTasks 0 = 27 ∧ productivityScoreSpec cexTasks 0 = 26 ∧
    (27 : Int) ≠ 26 := by
  have hc : (cexTasks.filter fun t => t.completed).length = 1 := by decide
  have htot : cexTasks.length = 3 := by decide
  have ho : (cexTasks.filter (overdueB 0)).length = 1 := by decide
  refine ⟨?_, ?_, ?_, ?_, by decide⟩
  · rfl
  · simp only [productivityScoreSpec, List.length_nil, List.filter_nil]
    norm_num [jsRound]
  · simp only [calculateProductivityScore, hc, htot, ho]
    norm_num [jsRound]
  · simp only [productivityScoreSpec, hc, htot, ho]
    norm_num [jsRound]

/-- Claim C8 (confirmed): starting from the empty history, after any
sequence of operations both stacks hold at most ten snapshots; and a push
onto a full stack evicts the oldest entry (the head for the undo stack,
kept newest-last; the last entry for the redo stack, kept newest-first)
rather than rejecting the push. -/
theorem C8_bounded_stacks :
    (∀ ops : List TaskOp,
        (runOps initState ops).undoStack.length ≤ 10 ∧
        (runOps initState ops).redoStack.length ≤ 10) ∧
    (∀ (stack : List (List Task)) (cur : List Task), stack.length = 10 →
        pushStack stack cur = stack.drop 1 ++ [cur] ∧
          (pushStack stack cur).length = 10) ∧
    (∀ (stack : List (List Task)) (cur : List Task), stack.length = 10 →
        cur :: stack.take 9 = cur :: stack.dropLast ∧
          (cur :: stack.take 9).length = 10) := by
  refine ⟨?_, ?_, ?_⟩
  · intro ops
    exact boundedS_runOps ops initState ⟨by simp [initState], by simp [initState]⟩
  · intro stack cur h
    constructor
    · unfold pushStack
      rw [h]
    · have h2 := h
      simp [pushStack]
      omega
  · intro stack cur h
    constructor
    · rw [List.dropLast_eq_take, h]
    · simp [List.length_take, h]

/-- Claim C8 witness: a concrete run and a concrete full stack. -/
theorem C8_witness :
    ((runOps initState [TaskOp.clear, TaskOp.undo]).undoStack.length ≤ 10 ∧
      (runOps initState [TaskOp.clear, TaskOp.undo]).redoStack.length ≤ 10) ∧
    (pushStack stack10 [exTask] = stack10.drop 1 ++ [[exTask]] ∧
      (pushStack stack10 [exTask]).length = 10) ∧
    ([exTask] :: stack10.take 9 = [exTask] :: stack10.dropLast ∧
      ([exTask] :: stack10.take 9).length = 10) :=
  ⟨C8_bounded_stacks.1 [TaskOp.clear, TaskOp.undo],
   C8_bounded_stacks.2.1 stack10 [exTask] (by decide),
   C8_bounded_stacks.2.2 stack10 [exTask] (by decide)⟩

/-- Claim C9 (code bug): the specification says export and report
generation never fail on task content; in the source,
`exportProgressData`'s first statement `new TaskAnalytics(tasks)` throws a
`TypeError` on every call -- for every collection, the empty one included --
because `TaskAnalytics` is a plain object literal, and
`generateProgressReport` starts by calling `exportProgressData`, so both
always throw. -/
theorem C9_export_always_throws :
    ∀ tasks : List Task,
      exportProgressData tasks =
        Except.error (JsError.typeError "TaskAnalytics is not a constructor") ∧
      generateProgressReport tasks =
        Except.error (JsError.typeError "TaskAnalytics is not a constructor") :=
  fun _ => ⟨rfl, rfl⟩

/-- Claim C10 (confirmed): for every collection and current date, the
longest streak is at least the current streak: the current streak is the
anchored run starting at the newest completion day, and the longest-streak
scan dominates every run of the same day list, the initial one included. -/
theorem C10_longest_ge_current :
    ∀ (tasks : List Task) (now : Int),
      (calculateStreakData tasks now).current ≤ (calculateStreakData tasks now).longest := by
  intro tasks now
  unfold calculateStreakData
  cases h : completionDays tasks with
  | nil => simp
  | cons d rest =>
    dsimp only
    split
    · have h2 := initRun_le_runsFold rest d 1 0 (le_refl 1)
      simpa using h2
    · exact Nat.zero_le _

end TaskManager
